import Mathlib

/-!
Shallow embedding of `src/day/main.c` (day-of-the-week calculator).

C `int` values are modelled as `Int`; C `/` and `%` (truncating division,
remainder with the sign of the dividend) are modelled by `Int.tdiv` and
`Int.tmod`.  The `printf` diagnostics of `is_valid_date` are modelled as an
explicit `Option Diagnostic` side channel; `print_day_name` returns the line
it would print as a `String`.
-/

namespace DayFinder

/-- Embeds `is_leap` (main.c lines 18-29): returns `1` if `year` is a leap
year, `0` otherwise, via the chain of `year % 400`, `year % 100`,
`year % 4` tests. -/
def is_leap (year : Int) : Int :=
  if Int.tmod year 400 = 0 then 1
  else if Int.tmod year 100 = 0 then 0
  else if Int.tmod year 4 = 0 then 1
  else 0

/-- Embeds `get_days_in_month` (main.c lines 37-58): number of days of a
month, `-1` for a month outside 1..12 (and a trailing `-1` fallback). -/
def get_days_in_month (month year : Int) : Int :=
  if month < 1 ∨ month > 12 then -1
  else if month = 4 ∨ month = 6 ∨ month = 9 ∨ month = 11 then 30
  else if month = 1 ∨ month = 3 ∨ month = 5 ∨ month = 7 ∨ month = 8 ∨
          month = 10 ∨ month = 12 then 31
  else if month = 2 then (if is_leap year = 1 then 29 else 28)
  else -1

/-- The diagnostics `is_valid_date` can print, as structured data.
`invalidDay` carries the arguments of the corresponding `printf`
(`max_day`, `month`, `year`). -/
inductive Diagnostic : Type where
  | invalidYear : Diagnostic
  | invalidMonth : Diagnostic
  | invalidDay : Int → Int → Int → Diagnostic
deriving DecidableEq, Repr

/-- Embeds `is_valid_date` (main.c lines 67-86) together with its `printf`
side channel: the Bool result paired with the diagnostic emitted (if any). -/
def is_valid_date_diag (day month year : Int) : Bool × Option Diagnostic :=
  if year < 1700 ∨ year > 2500 then (false, some Diagnostic.invalidYear)
  else if month < 1 ∨ month > 12 then (false, some Diagnostic.invalidMonth)
  else
    let max_day := get_days_in_month month year
    if day < 1 ∨ day > max_day then
      (false, some (Diagnostic.invalidDay max_day month year))
    else (true, none)

/-- The Bool returned by `is_valid_date` (main.c lines 67-86). -/
def is_valid_date (day month year : Int) : Bool :=
  (is_valid_date_diag day month year).1

/-- Embeds `calculate_day_of_week` (main.c lines 96-146): the Zeller-style
formula actually wired to the return value (the variable `h`; the earlier
`day_index` computes the identical expression and is dead). -/
def calculate_day_of_week (day month year : Int) : Int :=
  let p : Int × Int :=
    if month = 1 then (13, year - 1)
    else if month = 2 then (14, year - 1)
    else (month, year)
  let D : Int := Int.tmod p.2 100
  let C : Int := Int.tdiv p.2 100
  Int.tmod (day + Int.tdiv (13 * (p.1 + 1)) 5 + D + Int.tdiv D 4 +
            Int.tdiv C 4 + 5 * C) 7

/-- The weekday-name array of `print_day_name` (main.c lines 152-164). -/
def day_names : List String :=
  ["Saturday", "Sunday", "Monday", "Tuesday", "Wednesday", "Thursday",
   "Friday"]

/-- Embeds `print_day_name` (main.c lines 152-164): the line printed for a
given index.  The in-range branch indexes `day_names`; the guard
`0 ≤ day_index ∧ day_index ≤ 6` mirrors the C bounds check, so the list
access is total (`getD` with an unused default). -/
def print_day_name (day_index : Int) : String :=
  if 0 ≤ day_index ∧ day_index ≤ 6 then
    "The day of the week was: " ++ day_names.getD day_index.toNat "" ++ "\n"
  else
    "Error: Invalid day index calculated.\n"

/-- Modelled from the spec (§4.1 computeWeekday, claim C1's wording): first
the two month adjustments as two independent conditional rewrites, then
`C = year div 100`, `D = year mod 100`, then the stated formula, all with
truncating division. -/
def computeWeekday_spec (day month year : Int) : Int :=
  let q1 : Int × Int := if month = 1 then (13, year - 1) else (month, year)
  let q2 : Int × Int := if q1.1 = 2 then (14, q1.2 - 1) else q1
  let C : Int := Int.tdiv q2.2 100
  let D : Int := Int.tmod q2.2 100
  Int.tmod (day + Int.tdiv (13 * (q2.1 + 1)) 5 + D + Int.tdiv D 4 +
            Int.tdiv C 4 + 5 * C) 7

/-- Helper: for a month in 1..12 the month-length table yields one of
28, 29, 30, 31 (February depending on the leap test). -/
lemma get_days_in_month_cases (m y : Int) (h1 : 1 ≤ m) (h2 : m ≤ 12) :
    get_days_in_month m y = 28 ∨ get_days_in_month m y = 29 ∨
    get_days_in_month m y = 30 ∨ get_days_in_month m y = 31 := by
  unfold get_days_in_month
  interval_cases m <;> simp <;> split_ifs <;> tauto

/-- Helper: the Zeller sum of nonnegative ingredients has a `tmod 7` in
`[0, 7)`. -/
lemma zeller_bounds (d mm yy : Int) (hd : 1 ≤ d) (hm : 3 ≤ mm) (hy : 0 ≤ yy) :
    0 ≤ Int.tmod (d + Int.tdiv (13 * (mm + 1)) 5 + Int.tmod yy 100 +
          Int.tdiv (Int.tmod yy 100) 4 + Int.tdiv (Int.tdiv yy 100) 4 +
          5 * Int.tdiv yy 100) 7 ∧
    Int.tmod (d + Int.tdiv (13 * (mm + 1)) 5 + Int.tmod yy 100 +
          Int.tdiv (Int.tmod yy 100) 4 + Int.tdiv (Int.tdiv yy 100) 4 +
          5 * Int.tdiv yy 100) 7 < 7 := by
  have h1 : 0 ≤ Int.tdiv (13 * (mm + 1)) 5 := Int.tdiv_nonneg (by omega) (by omega)
  have h2 : 0 ≤ Int.tmod yy 100 := Int.tmod_nonneg _ hy
  have h3 : 0 ≤ Int.tdiv (Int.tmod yy 100) 4 := Int.tdiv_nonneg h2 (by omega)
  have h4 : 0 ≤ Int.tdiv yy 100 := Int.tdiv_nonneg hy (by omega)
  have h5 : 0 ≤ Int.tdiv (Int.tdiv yy 100) 4 := Int.tdiv_nonneg h4 (by omega)
  have hsum : 0 ≤ d + Int.tdiv (13 * (mm + 1)) 5 + Int.tmod yy 100 +
      Int.tdiv (Int.tmod yy 100) 4 + Int.tdiv (Int.tdiv yy 100) 4 +
      5 * Int.tdiv yy 100 := by omega
  exact ⟨Int.tmod_nonneg _ hsum, Int.tmod_lt_of_pos _ (by omega)⟩

/-- Helper: for day ≥ 1, month in 1..12 and year ≥ 1700, the computed
weekday index lies in `[0, 7)`. -/
lemma cdow_range (d m y : Int) (hd : 1 ≤ d) (hm1 : 1 ≤ m) (hm2 : m ≤ 12)
    (hy : 1700 ≤ y) :
    0 ≤ calculate_day_of_week d m y ∧ calculate_day_of_week d m y < 7 := by
  unfold calculate_day_of_week
  by_cases h1 : m = 1
  · simpa [h1] using zeller_bounds d 13 (y - 1) hd (by omega) (by omega)
  · by_cases h2 : m = 2
    · simpa [h1, h2] using zeller_bounds d 14 (y - 1) hd (by omega) (by omega)
    · simpa [h1, h2] using zeller_bounds d m y hd (by omega) (by omega)

/-- C1: for every day, month, year, `calculate_day_of_week` equals the
algorithm exactly as the spec states it (month 1 → 13 and month 2 → 14 with
a year decrement, then `C = year div 100`, `D = year mod 100`, then
`(day + (13*(month+1)) div 5 + D + D div 4 + C div 4 + 5*C) mod 7`, all
with truncating division). -/
theorem calculate_day_of_week_eq_spec (day month year : Int) :
    calculate_day_of_week day month year = computeWeekday_spec day month year := by
  unfold calculate_day_of_week computeWeekday_spec
  by_cases h1 : month = 1
  · simp [h1]
  · by_cases h2 : month = 2 <;> simp [h1, h2]

/-- C2: every valid Gregorian date with year in [1700, 2500] (month in
1..12, day between 1 and the month length) passes `is_valid_date`, and its
computed weekday index is in [0, 6]. -/
theorem valid_date_roundtrip (d m y : Int) (hy1 : 1700 ≤ y) (hy2 : y ≤ 2500)
    (hm1 : 1 ≤ m) (hm2 : m ≤ 12) (hd1 : 1 ≤ d)
    (hd2 : d ≤ get_days_in_month m y) :
    is_valid_date d m y = true ∧
    0 ≤ calculate_day_of_week d m y ∧ calculate_day_of_week d m y ≤ 6 := by
  have hr := cdow_range d m y hd1 hm1 hm2 hy1
  refine ⟨?_, hr.1, by omega⟩
  unfold is_valid_date is_valid_date_diag
  dsimp only
  split_ifs with h1 h2 h3 <;> first | rfl | omega

/-- Witness for C2 at the concrete date 15/10/2025. -/
theorem valid_date_roundtrip_witness :
    is_valid_date 15 10 2025 = true ∧
    0 ≤ calculate_day_of_week 15 10 2025 ∧
    calculate_day_of_week 15 10 2025 ≤ 6 :=
  valid_date_roundtrip 15 10 2025 (by decide) (by decide) (by decide)
    (by decide) (by decide) (by decide)

/-- C3: `is_valid_date` returns true exactly when the year is in
[1700, 2500], the month in [1, 12] and the day between 1 and the month
length; each failing check returns false and emits the diagnostic naming
the violated constraint, the day diagnostic carrying the computed maximum
valid day. -/
theorem is_valid_date_contract (d m y : Int) :
    (is_valid_date d m y = true ↔
      (1700 ≤ y ∧ y ≤ 2500 ∧ 1 ≤ m ∧ m ≤ 12 ∧ 1 ≤ d ∧
       d ≤ get_days_in_month m y)) ∧
    ((y < 1700 ∨ 2500 < y) →
      is_valid_date_diag d m y = (false, some Diagnostic.invalidYear)) ∧
    (1700 ≤ y → y ≤ 2500 → (m < 1 ∨ 12 < m) →
      is_valid_date_diag d m y = (false, some Diagnostic.invalidMonth)) ∧
    (1700 ≤ y → y ≤ 2500 → 1 ≤ m → m ≤ 12 →
      (d < 1 ∨ get_days_in_month m y < d) →
      is_valid_date_diag d m y =
        (false, some (Diagnostic.invalidDay (get_days_in_month m y) m y))) := by
  unfold is_valid_date is_valid_date_diag
  dsimp only
  split_ifs with hy hm hd <;> simp <;> omega

/-- Witness for C3 at the concrete invalid date 31/2/2025. -/
theorem is_valid_date_contract_witness :
    is_valid_date_diag 31 2 2025 =
      (false, some (Diagnostic.invalidDay (get_days_in_month 2 2025) 2 2025)) :=
  (is_valid_date_contract 31 2 2025).2.2.2 (by decide) (by decide) (by decide)
    (by decide) (Or.inr (by decide))

/-- C4: `is_leap` answers 1 exactly when the year is divisible by 400, or
by 4 but not by 100; it is total and only ever returns 0 or 1. -/
theorem is_leap_contract (y : Int) :
    (is_leap y = 1 ↔ (400 ∣ y ∨ (4 ∣ y ∧ ¬ (100 ∣ y)))) ∧
    (is_leap y = 0 ∨ is_leap y = 1) := by
  unfold is_leap
  split_ifs with h1 h2 h3 <;> simp
  · exact Or.inl (Int.dvd_of_tmod_eq_zero h1)
  · exact ⟨fun h => h1 (Int.tmod_eq_zero_of_dvd h),
      fun _ => Int.dvd_of_tmod_eq_zero h2⟩
  · exact Or.inr ⟨Int.dvd_of_tmod_eq_zero h3,
      fun h => h2 (Int.tmod_eq_zero_of_dvd h)⟩
  · exact ⟨fun h => h1 (Int.tmod_eq_zero_of_dvd h),
      fun h => absurd (Int.tmod_eq_zero_of_dvd h) h3⟩

/-- Witness for C4 at the concrete leap year 2024. -/
theorem is_leap_contract_witness : is_leap 2024 = 1 :=
  (is_leap_contract 2024).1.mpr (Or.inr ⟨by decide, by decide⟩)

/-- C5: `get_days_in_month` returns 31 for months 1,3,5,7,8,10,12, 30 for
months 4,6,9,11, 29 or 28 for February depending on the leap test, and the
sentinel -1 for every month outside 1..12, for every year. -/
theorem get_days_in_month_contract (m y : Int) :
    ((m = 1 ∨ m = 3 ∨ m = 5 ∨ m = 7 ∨ m = 8 ∨ m = 10 ∨ m = 12) →
      get_days_in_month m y = 31) ∧
    ((m = 4 ∨ m = 6 ∨ m = 9 ∨ m = 11) → get_days_in_month m y = 30) ∧
    (m = 2 → get_days_in_month m y = (if is_leap y = 1 then 29 else 28)) ∧
    ((m < 1 ∨ 12 < m) → get_days_in_month m y = -1) := by
  refine ⟨?_, ?_, ?_, ?_⟩
  · rintro (rfl | rfl | rfl | rfl | rfl | rfl | rfl) <;> rfl
  · rintro (rfl | rfl | rfl | rfl) <;> rfl
  · rintro rfl
    rfl
  · intro h
    unfold get_days_in_month
    rw [if_pos (by omega)]

/-- Witness for C5 at concrete months 1, 4, 2 and the out-of-range 13. -/
theorem get_days_in_month_contract_witness :
    get_days_in_month 1 2025 = 31 ∧ get_days_in_month 4 2025 = 30 ∧
    get_days_in_month 2 2024 = (if is_leap 2024 = 1 then 29 else 28) ∧
    get_days_in_month 13 2025 = -1 :=
  ⟨(get_days_in_month_contract 1 2025).1 (Or.inl rfl),
   (get_days_in_month_contract 4 2025).2.1 (Or.inl rfl),
   (get_days_in_month_contract 2 2024).2.2.1 rfl,
   (get_days_in_month_contract 13 2025).2.2.2 (Or.inr (by decide))⟩

/-- C6: the concrete date 15/10/2025 validates, its weekday index is 4,
and `print_day_name` renders that index as Wednesday, the Gregorian ground
truth for 2025-10-15. -/
theorem concrete_20251015 :
    is_valid_date 15 10 2025 = true ∧
    calculate_day_of_week 15 10 2025 = 4 ∧
    print_day_name (calculate_day_of_week 15 10 2025) =
      "The day of the week was: Wednesday\n" := by
  refine ⟨by decide, by decide, ?_⟩
  decide

/-- C7: `print_day_name` maps indices 0..6 to the fixed sequence Saturday,
Sunday, Monday, Tuesday, Wednesday, Thursday, Friday, and prints the error
diagnostic (never touching the array) for every index outside 0..6. -/
theorem print_day_name_contract :
    print_day_name 0 = "The day of the week was: Saturday\n" ∧
    print_day_name 1 = "The day of the week was: Sunday\n" ∧
    print_day_name 2 = "The day of the week was: Monday\n" ∧
    print_day_name 3 = "The day of the week was: Tuesday\n" ∧
    print_day_name 4 = "The day of the week was: Wednesday\n" ∧
    print_day_name 5 = "The day of the week was: Thursday\n" ∧
    print_day_name 6 = "The day of the week was: Friday\n" ∧
    (∀ i : Int, i < 0 ∨ 6 < i →
      print_day_name i = "Error: Invalid day index calculated.\n") := by
  refine ⟨by decide, by decide, by decide, by decide, by decide, by decide,
    by decide, ?_⟩
  intro i h
  unfold print_day_name
  rw [if_neg (by omega)]

/-- Witness for C7 at the out-of-range index 7. -/
theorem print_day_name_contract_witness :
    print_day_name 7 = "Error: Invalid day index calculated.\n" :=
  print_day_name_contract.2.2.2.2.2.2.2 7 (Or.inr (by decide))

/-- C8: the boundary dates 29/2/2023 (non-leap February), 31/4/2025 (April
has 30 days) and 1/1/1699 (year below range) all fail validation. -/
theorem boundary_invalid_dates :
    is_valid_date 29 2 2023 = false ∧ is_valid_date 31 4 2025 = false ∧
    is_valid_date 1 1 1699 = false := by decide

/-- C9: the checks of `is_valid_date` fire in the order year, month, day
and only the first violated one is reported; a day diagnostic implies the
month was in [1, 12] and the year in range, so the maximum day it carries
is the true month length (between 28 and 31), never the sentinel -1. -/
theorem is_valid_date_check_order (d m y : Int) :
    ((y < 1700 ∨ 2500 < y) →
      (is_valid_date_diag d m y).2 = some Diagnostic.invalidYear) ∧
    ((1700 ≤ y ∧ y ≤ 2500) → (m < 1 ∨ 12 < m) →
      (is_valid_date_diag d m y).2 = some Diagnostic.invalidMonth) ∧
    (∀ mx mm yy : Int,
      (is_valid_date_diag d m y).2 = some (Diagnostic.invalidDay mx mm yy) →
      1 ≤ m ∧ m ≤ 12 ∧ 1700 ≤ y ∧ y ≤ 2500 ∧
      mx = get_days_in_month m y ∧ 28 ≤ mx ∧ mx ≤ 31) := by
  have hc := get_days_in_month_cases m y
  unfold is_valid_date_diag
  dsimp only
  split_ifs with hy hm hd <;> simp <;> try omega

/-- Witness for C9: a bad month on a valid year is reported as the month
diagnostic even though the day is also nonsense. -/
theorem is_valid_date_check_order_witness :
    (is_valid_date_diag 99 13 2025).2 = some Diagnostic.invalidMonth :=
  (is_valid_date_check_order 99 13 2025).2.1 ⟨by decide, by decide⟩
    (Or.inr (by decide))

/-- C10: for every month in 1..12 and every year, `get_days_in_month` is
one of 28, 29, 30, 31 and in particular strictly positive: the trailing
-1 fallback after the range guard is unreachable. -/
theorem get_days_in_month_in_range (m y : Int) (h1 : 1 ≤ m) (h2 : m ≤ 12) :
    (get_days_in_month m y = 28 ∨ get_days_in_month m y = 29 ∨
     get_days_in_month m y = 30 ∨ get_days_in_month m y = 31) ∧
    0 < get_days_in_month m y := by
  have := get_days_in_month_cases m y h1 h2
  exact ⟨this, by omega⟩

/-- Witness for C10 at February 2024. -/
theorem get_days_in_month_in_range_witness :
    (get_days_in_month 2 2024 = 28 ∨ get_days_in_month 2 2024 = 29 ∨
     get_days_in_month 2 2024 = 30 ∨ get_days_in_month 2 2024 = 31) ∧
    0 < get_days_in_month 2 2024 :=
  get_days_in_month_in_range 2 2024 (by decide) (by decide)

end DayFinder
